import Mathlib

/-!
Verification development for the grafanimate animation pipeline.

The embedding covers the data model of `grafanimate/model.py` (NavigationFlavor,
AnimationStep, AnimationScenario) and the command pipeline `run()` of
`grafanimate/commands.py`: CLI sanity checks, exposure-time normalization,
scenario loading, target resolution (grafana_url / dashboard_uid merging),
storage path templates, and the hand-off to the animation engine.

External collaborators (the docopt CLI parser, logging, the scenario loader
`get_scenario`, the browser-backed `make_grafana`, the storage backend
`make_storage`, and `run_animation` from `grafanimate.core`) are represented
at their interfaces: the loader is a function parameter, and the calls the
pipeline makes are recorded, in order, as an action trace.
-/

namespace Grafanimate

/-- NavigationFlavor enum from model.py: exactly the members WINDOW and
EXPAND, with string values "window" and "expand". -/
inductive NavigationFlavor where
  | WINDOW
  | EXPAND
  deriving Repr, DecidableEq

/-- String value carried by each NavigationFlavor member (model.py). -/
def NavigationFlavor.value : NavigationFlavor → String
  | .WINDOW => "window"
  | .EXPAND => "expand"

/-- AnimationStep dataclass from model.py. The `datetime` fields `dtstart`
and `dtuntil` are embedded as integers (epoch instants); no claim inspects
their internal structure. The `flavor` field is Optional with default
`NavigationFlavor.WINDOW`. -/
structure AnimationStep where
  dtstart : Int
  dtuntil : Int
  interval : String
  flavor : Option NavigationFlavor := some NavigationFlavor.WINDOW
  deriving Repr, DecidableEq

/-- The `@dataclasses.dataclass` decorator on AnimationStep (model.py) is
used with all default decorator arguments, so `frozen` is False. -/
def AnimationStep.dataclassFrozen : Bool := false

/-- Python attribute assignment `step.flavor = v` on a dataclass instance:
it raises FrozenInstanceError (embedded as `none`) exactly when the
dataclass was declared with `frozen=True`, and otherwise rebinds the field.
AnimationStep is a non-frozen dataclass, so the assignment succeeds. -/
def AnimationStep.setFlavor (s : AnimationStep) (v : Option NavigationFlavor) :
    Option AnimationStep :=
  if AnimationStep.dataclassFrozen then none else some { s with flavor := v }

/-- AnimationScenario dataclass from model.py: an ordered list of steps and
two optional target identifiers, both defaulting to None. -/
structure AnimationScenario where
  steps : List AnimationStep
  grafana_url : Option String := none
  dashboard_uid : Option String := none
  deriving Repr, DecidableEq

/-- Python truthiness of an optional CLI string value: docopt yields None
for an absent option, and both None and the empty string are falsy. -/
def pyTruthy : Option String → Bool
  | none => false
  | some s => !(s == "")

/-- Errors raised by the run() pipeline of commands.py. DocoptExit is raised
by the two sanity checks, KeyError by the dashboard-UID check; the
ConfigurationError case carries the engine-level configuration failures the
spec assigns to the animation engine. -/
inductive RunError where
  | docoptExit (msg : String)
  | keyError (msg : String)
  | configurationError (msg : String)
  deriving Repr, DecidableEq

/-- Lookup of a placeholder name inside the keyword arguments of a Python
`str.format` call. The keys of every call made by commands.py are present,
so the missing-key behaviour (Python raises KeyError) is never reached and
is embedded as the empty replacement. -/
def lookupVar : List (String × String) → List Char → List Char
  | [], _ => []
  | (k, v) :: rest, key => if k.data = key then v.data else lookupVar rest key

/-- Character-level engine of Python `str.format`: copies literal characters
and replaces each field `\x7bname\x7d` by the keyword argument bound to
`name`. The first argument accumulates the characters of the field name
currently being read (in reverse), `none` meaning outside a field. -/
def substFmtAux (vars : List (String × String)) :
    Option (List Char) → List Char → List Char
  | none, [] => []
  | none, c :: rest =>
      if c = '{' then substFmtAux vars (some []) rest
      else c :: substFmtAux vars none rest
  | some _, [] => []
  | some acc, c :: rest =>
      if c = '}' then lookupVar vars acc.reverse ++ substFmtAux vars none rest
      else substFmtAux vars (some (c :: acc)) rest

/-- Python `template.format(**vars)` for the templates used by commands.py. -/
def pyFormat (template : String) (vars : List (String × String)) : String :=
  ⟨substFmtAux vars none template.data⟩

/-- The per-frame image path template handed to make_storage
(commands.py, the `imagefile=` argument). -/
def imagefile : String := "./var/spool/{scenario}/{uid}/{uid}_{dtstart}_{dtuntil}.png"

/-- The composite output path template handed to make_storage
(commands.py, the `outputfile=` argument). -/
def outputfile : String := "./var/results/{scenario}--{name}--{uid}.mp4"

/-- Modelled from the spec: the Frame tuple of section 3. The Time-Window
Generator and Capture Orchestrator live in `grafanimate.core` and
`grafanimate.animations`, which are not under src/; the spec describes a
Frame as an `(effective_from, effective_to, sequence_index, ...)` tuple
whose timestamps are rendered into file names. The timestamp fields are
embedded as the strings that appear in the file name. -/
structure Frame where
  effective_from : String
  effective_to : String
  sequence_index : Nat
  deriving Repr, DecidableEq

/-- Path under which a captured frame is stored: the imagefile template of
commands.py instantiated for one frame. The template's placeholder set is
exactly scenario, uid, dtstart and dtuntil, filled with the frame's
effective time range (spec section 4.4). -/
def framePath (scenario uid : String) (f : Frame) : String :=
  pyFormat imagefile
    [("scenario", scenario), ("uid", uid),
     ("dtstart", f.effective_from), ("dtuntil", f.effective_to)]

/-- The normalized docopt option set consumed by run() (commands.py).
String-valued options are `Option String`, None when absent. The
`exposure-time` option reaches run() as a numeric string and is converted
with `float()`; it is embedded as the rational number the string denotes.
The `use-panel-events` option passes through `asbool` (grafanimate.util,
not under src/) and is embedded as the resulting boolean. -/
structure Options where
  scenario : Option String
  grafana_url : Option String
  dashboard_uid : Option String
  exposure_time : ℚ
  use_panel_events : Bool
  panel_id : Option String
  dashboard_view : Option String
  deriving Repr, DecidableEq

/-- Exposure-time normalization of commands.py: after converting the option
to a float, run() overwrites it with 0 whenever use-panel-events is
enabled. -/
def effectiveExposureTime (exposure_time : ℚ) (use_panel_events : Bool) : ℚ :=
  if use_panel_events then 0 else exposure_time

/-- Target-resolution block of commands.py, covering the three conditional
assignments performed on the freshly loaded scenario: take grafana_url from
the command line when supplied, fall back to the local default host when
still unset, and take dashboard_uid from the command line when supplied.
The second component counts how many field assignments were executed. -/
def mergeScenario (options : Options) (scenario : AnimationScenario) :
    AnimationScenario × Nat :=
  let s1 := if pyTruthy options.grafana_url then
      { scenario with grafana_url := options.grafana_url } else scenario
  let n1 : Nat := if pyTruthy options.grafana_url then 1 else 0
  let s2 := if !(pyTruthy s1.grafana_url) then
      { s1 with grafana_url := some "http://localhost:3000" } else s1
  let n2 : Nat := if !(pyTruthy s1.grafana_url) then n1 + 1 else n1
  let s3 := if pyTruthy options.dashboard_uid then
      { s2 with dashboard_uid := options.dashboard_uid } else s2
  let n3 : Nat := if pyTruthy options.dashboard_uid then n2 + 1 else n2
  (s3, n3)

/-- The scenario object as it stands after get_scenario and the merge block
of commands.py, i.e. the value every later pipeline stage reads. -/
def resolvedScenario (options : Options)
    (get_scenario : String → AnimationScenario) : AnimationScenario :=
  (mergeScenario options (get_scenario (options.scenario.getD ""))).1

/-- Modelled from the spec: `run_animation` of `grafanimate.core` is not
under src/. Per spec sections 4.1 and 7, an empty `steps` list is a
configuration error, reported, not silently producing zero frames; frame
generation beyond that validation is not needed by any claim and is left
as a unit result. -/
def run_animation (scenario : AnimationScenario) : Except RunError Unit :=
  if scenario.steps.isEmpty then
    Except.error (RunError.configurationError "scenario has no steps")
  else Except.ok ()

/-- One call made by run() to an external collaborator, with the arguments
that matter to the claims. -/
inductive PipelineAction where
  | getScenario (ref : String)
  | makeGrafana (url : Option String) (use_panel_events : Bool)
  | makeStorage (imagefile outputfile : String)
  | runAnimation (exposure_time : ℚ) (use_panel_events : Bool)
      (scenario : AnimationScenario)
  | getDashboardTitle
  | produceArtifacts (scenario : Option String) (uid : Option String)
  deriving Repr, DecidableEq

/-- Shallow embedding of run() from commands.py, with the scenario loader
as a parameter. The result is the ordered trace of collaborator calls the
pipeline performed, paired with the error that aborted it, if any; a raised
exception aborts the function, so actions after the raise point do not
appear in the trace. The glob path built for produce_artifacts goes through
`slug` (grafanimate.util, not under src/) and is not claim-relevant, so the
produceArtifacts action records the raw scenario reference and the resolved
dashboard uid it receives. -/
def run (options : Options) (get_scenario : String → AnimationScenario) :
    List PipelineAction × Option RunError :=
  if !(pyTruthy options.scenario) then
    ([], some (RunError.docoptExit "Error: Parameter --scenario is mandatory"))
  else if options.dashboard_view == some "d-solo" && !(pyTruthy options.panel_id) then
    ([], some (RunError.docoptExit
        "Error: Parameter --panel-id is mandatory for --dashboard-view=d-solo"))
  else if !(pyTruthy (resolvedScenario options get_scenario).dashboard_uid) then
    ([PipelineAction.getScenario (options.scenario.getD "")],
     some (RunError.keyError
        "Dashboard UID is mandatory, either supply it on the command line or via scenario file"))
  else
    match run_animation (resolvedScenario options get_scenario) with
    | Except.error e =>
        ([PipelineAction.getScenario (options.scenario.getD ""),
          PipelineAction.makeGrafana (resolvedScenario options get_scenario).grafana_url
            options.use_panel_events,
          PipelineAction.makeStorage imagefile outputfile,
          PipelineAction.runAnimation
            (effectiveExposureTime options.exposure_time options.use_panel_events)
            options.use_panel_events (resolvedScenario options get_scenario)],
         some e)
    | Except.ok _ =>
        ([PipelineAction.getScenario (options.scenario.getD ""),
          PipelineAction.makeGrafana (resolvedScenario options get_scenario).grafana_url
            options.use_panel_events,
          PipelineAction.makeStorage imagefile outputfile,
          PipelineAction.runAnimation
            (effectiveExposureTime options.exposure_time options.use_panel_events)
            options.use_panel_events (resolvedScenario options get_scenario),
          PipelineAction.getDashboardTitle,
          PipelineAction.produceArtifacts options.scenario
            (resolvedScenario options get_scenario).dashboard_uid],
         none)

/-- Sample step used by concrete witnesses. -/
def sampleStep : AnimationStep :=
  { dtstart := 0, dtuntil := 60, interval := "10s" }

/-- Sample scenario carrying no target identifiers of its own. -/
def bareScenario : AnimationScenario := { steps := [sampleStep] }

/-- Sample scenario that already carries both target identifiers. -/
def presetScenario : AnimationScenario :=
  { steps := [sampleStep],
    grafana_url := some "https://play.grafana.org/",
    dashboard_uid := some "000000012" }

/-- Sample scenario with an empty step list and a dashboard uid. -/
def emptyStepsScenario : AnimationScenario :=
  { steps := [], dashboard_uid := some "000000012" }

/-- Loader returning the preset scenario for every reference. -/
def presetLoader : String → AnimationScenario := fun _ => presetScenario

/-- Loader returning the bare scenario for every reference. -/
def bareLoader : String → AnimationScenario := fun _ => bareScenario

/-- Loader returning the empty-steps scenario for every reference. -/
def emptyStepsLoader : String → AnimationScenario := fun _ => emptyStepsScenario

/-- Sample option set: panel events enabled, both target flags supplied. -/
def sampleOptions : Options :=
  { scenario := some "playdemo",
    grafana_url := some "http://localhost:3000/",
    dashboard_uid := some "000000012",
    exposure_time := 3,
    use_panel_events := true,
    panel_id := none,
    dashboard_view := none }

/-- Sample option set requesting the d-solo view without a panel id. -/
def soloOptions : Options :=
  { sampleOptions with dashboard_view := some "d-solo", panel_id := none }

/-- Sample option set with neither target flag supplied and panel events
disabled. -/
def noFlagOptions : Options :=
  { scenario := some "playdemo",
    grafana_url := none,
    dashboard_uid := none,
    exposure_time := 3,
    use_panel_events := false,
    panel_id := none,
    dashboard_view := none }

/-- Sample option set with the scenario reference absent. -/
def noScenarioOptions : Options := { sampleOptions with scenario := none }

/-- The merged grafana_url follows the precedence of commands.py: command
line flag first, then the scenario value, then the local default host. -/
theorem mergeScenario_grafana_url (options : Options) (s : AnimationScenario) :
    (mergeScenario options s).1.grafana_url
      = if pyTruthy options.grafana_url then options.grafana_url
        else if pyTruthy s.grafana_url then s.grafana_url
        else some "http://localhost:3000" := by
  unfold mergeScenario
  by_cases h1 : pyTruthy options.grafana_url = true
  · by_cases h2 : pyTruthy options.dashboard_uid = true <;> simp [h1, h2]
  · simp only [Bool.not_eq_true] at h1
    by_cases h2 : pyTruthy s.grafana_url = true <;>
      by_cases h3 : pyTruthy options.dashboard_uid = true <;>
        simp [h1, h2, h3]

/-- The merged dashboard_uid is the command line flag when supplied and the
scenario value otherwise. -/
theorem mergeScenario_dashboard_uid (options : Options) (s : AnimationScenario) :
    (mergeScenario options s).1.dashboard_uid
      = if pyTruthy options.dashboard_uid then options.dashboard_uid
        else s.dashboard_uid := by
  unfold mergeScenario
  by_cases h1 : pyTruthy options.grafana_url = true <;>
    by_cases h2 : pyTruthy options.dashboard_uid = true <;>
      by_cases h3 : pyTruthy s.grafana_url = true <;>
        simp [h1, h2, h3]

/-- The merge block performs at most two field assignments: the two
grafana_url branches are mutually exclusive, and dashboard_uid is assigned
at most once. -/
theorem mergeScenario_count_le_two (options : Options) (s : AnimationScenario) :
    (mergeScenario options s).2 ≤ 2 := by
  unfold mergeScenario
  by_cases h1 : pyTruthy options.grafana_url = true <;>
    by_cases h2 : pyTruthy options.dashboard_uid = true <;>
      by_cases h3 : pyTruthy s.grafana_url = true <;>
        simp [h1, h2, h3]

/-- The only error the modelled animation engine raises is the empty-steps
configuration error. -/
theorem run_animation_error_shape (s : AnimationScenario) (e : RunError)
    (h : run_animation s = Except.error e) :
    e = RunError.configurationError "scenario has no steps" := by
  unfold run_animation at h
  split at h
  · exact (Except.error.injEq _ _).mp h |>.symm
  · exact absurd h (by simp)

/-- C1: in every run, the exposure time handed to the animation engine is 0
whenever the use-panel-events option is enabled, regardless of the
configured exposure-time value, and is the configured (float-converted)
value unchanged when the option is disabled. -/
theorem run_exposure_time_effective (options : Options)
    (get_scenario : String → AnimationScenario) (e : ℚ) (b : Bool)
    (s : AnimationScenario)
    (hmem : PipelineAction.runAnimation e b s ∈ (run options get_scenario).1) :
    e = if options.use_panel_events then 0 else options.exposure_time := by
  by_cases h1 : pyTruthy options.scenario = true
  · by_cases h2 : (options.dashboard_view == some "d-solo" && !(pyTruthy options.panel_id)) = true
    · simp [run, h1, h2] at hmem
    · by_cases h3 : pyTruthy (resolvedScenario options get_scenario).dashboard_uid = true
      · rcases hra : run_animation (resolvedScenario options get_scenario) with e' | u
        · simp [run, h1, h2, h3, hra, effectiveExposureTime] at hmem
          exact hmem.1
        · simp [run, h1, h2, h3, hra, effectiveExposureTime] at hmem
          exact hmem.1
      · simp [run, h1, h2, h3] at hmem
  · simp [run, h1] at hmem

/-- C1 witness: a concrete run with panel events enabled and a configured
exposure time of 3 hands exposure time 0 to the animation engine. -/
theorem run_exposure_time_effective_witness :
    (0 : ℚ) = if sampleOptions.use_panel_events then 0 else sampleOptions.exposure_time :=
  run_exposure_time_effective sampleOptions presetLoader 0 true
    (resolvedScenario sampleOptions presetLoader) (by decide)

/-- C2: when dashboard-view is "d-solo" and no panel-id is supplied, the
run fails fast with a DocoptExit configuration error and an empty pipeline
trace, so no scenario loading, navigation or other pipeline work begins;
when a panel-id is supplied, or a different dashboard-view is requested,
the solo-view check never fires. -/
theorem run_solo_view_requires_panel_id (options : Options)
    (get_scenario : String → AnimationScenario) :
    (options.dashboard_view = some "d-solo" → pyTruthy options.panel_id = false →
      (run options get_scenario).1 = []
        ∧ ∃ msg, (run options get_scenario).2 = some (RunError.docoptExit msg))
    ∧ (pyTruthy options.panel_id = true ∨ options.dashboard_view ≠ some "d-solo" →
      (run options get_scenario).2 ≠ some (RunError.docoptExit
        "Error: Parameter --panel-id is mandatory for --dashboard-view=d-solo")) := by
  constructor
  · intro hview hpanel
    by_cases h1 : pyTruthy options.scenario = true
    · simp [run, h1, hview, hpanel]
    · simp [run, h1]
  · intro hp
    have h2 : (options.dashboard_view == some "d-solo" && !(pyTruthy options.panel_id)) = false := by
      rcases hp with hp | hp
      · simp [hp]
      · simp [beq_iff_eq, hp]
    by_cases h1 : pyTruthy options.scenario = true
    · by_cases h3 : pyTruthy (resolvedScenario options get_scenario).dashboard_uid = true
      · rcases hra : run_animation (resolvedScenario options get_scenario) with e' | u
        · have he : e' = RunError.configurationError "scenario has no steps" :=
            run_animation_error_shape _ _ hra
          simp [run, h1, h2, h3, hra, he]
        · simp [run, h1, h2, h3, hra]
      · simp [run, h1, h2, h3]
    · simp [run, h1]

/-- C2 witness: the concrete solo-view run without a panel id aborts with
an empty trace and a DocoptExit, and a concrete run without the solo view
never sees the panel-id error. -/
theorem run_solo_view_requires_panel_id_witness :
    ((run soloOptions presetLoader).1 = []
      ∧ ∃ msg, (run soloOptions presetLoader).2 = some (RunError.docoptExit msg))
    ∧ (run sampleOptions presetLoader).2 ≠ some (RunError.docoptExit
        "Error: Parameter --panel-id is mandatory for --dashboard-view=d-solo") :=
  ⟨(run_solo_view_requires_panel_id soloOptions presetLoader).1 rfl (by decide),
   (run_solo_view_requires_panel_id sampleOptions presetLoader).2 (Or.inr (by decide))⟩

/-- C3: a missing scenario reference and a dashboard uid supplied by
neither the command line nor the scenario are both fatal pre-flight
configuration errors: the run raises immediately, and in both cases the
trace contains no run_animation call, so no frame capture is attempted. -/
theorem run_preflight_configuration_errors (options : Options)
    (get_scenario : String → AnimationScenario) :
    (pyTruthy options.scenario = false →
      run options get_scenario
        = ([], some (RunError.docoptExit "Error: Parameter --scenario is mandatory")))
    ∧ (pyTruthy options.scenario = true →
       (options.dashboard_view == some "d-solo" && !(pyTruthy options.panel_id)) = false →
       pyTruthy (resolvedScenario options get_scenario).dashboard_uid = false →
       run options get_scenario
         = ([PipelineAction.getScenario (options.scenario.getD "")],
            some (RunError.keyError
              "Dashboard UID is mandatory, either supply it on the command line or via scenario file")))
    ∧ ((pyTruthy options.scenario = false
          ∨ pyTruthy (resolvedScenario options get_scenario).dashboard_uid = false) →
       ∀ e b s, PipelineAction.runAnimation e b s ∉ (run options get_scenario).1) := by
  refine ⟨?_, ?_, ?_⟩
  · intro h1
    simp [run, h1]
  · intro h1 h2 h3
    simp [run, h1, h2, h3]
  · intro hor e b s hmem
    rcases hor with h | h
    · simp [run, h] at hmem
    · by_cases h1 : pyTruthy options.scenario = true
      · by_cases h2 : (options.dashboard_view == some "d-solo" && !(pyTruthy options.panel_id)) = true
        · simp [run, h1, h2] at hmem
        · simp [run, h1, h2, h] at hmem
      · simp [run, h1] at hmem

/-- C3 witness: the concrete run without a scenario reference fails at
once with the DocoptExit, the concrete run whose flag and scenario both
lack a dashboard uid fails with the KeyError after only the loader call,
and that trace contains no run_animation call. -/
theorem run_preflight_configuration_errors_witness :
    (run noScenarioOptions presetLoader
      = ([], some (RunError.docoptExit "Error: Parameter --scenario is mandatory")))
    ∧ (run noFlagOptions bareLoader
      = ([PipelineAction.getScenario "playdemo"],
         some (RunError.keyError
           "Dashboard UID is mandatory, either supply it on the command line or via scenario file")))
    ∧ ∀ e b s, PipelineAction.runAnimation e b s ∉ (run noFlagOptions bareLoader).1 :=
  ⟨(run_preflight_configuration_errors noScenarioOptions presetLoader).1 (by decide),
   (run_preflight_configuration_errors noFlagOptions bareLoader).2.1
     (by decide) (by decide) (by decide),
   (run_preflight_configuration_errors noFlagOptions bareLoader).2.2 (Or.inr (by decide))⟩

/-- C4: target resolution precedence: the grafana-url flag overrides the
scenario value; with neither source supplying a URL the merged URL is the
local default host; the dashboard-uid flag overrides the scenario value;
and when neither the flag nor the scenario supplies a dashboard uid the
run fails with the fatal KeyError. -/
theorem run_target_resolution_precedence (options : Options)
    (s : AnimationScenario) (get_scenario : String → AnimationScenario) :
    (pyTruthy options.grafana_url = true →
      (mergeScenario options s).1.grafana_url = options.grafana_url)
    ∧ (pyTruthy options.grafana_url = false → pyTruthy s.grafana_url = false →
      (mergeScenario options s).1.grafana_url = some "http://localhost:3000")
    ∧ (pyTruthy options.dashboard_uid = true →
      (mergeScenario options s).1.dashboard_uid = options.dashboard_uid)
    ∧ (pyTruthy options.scenario = true →
       (options.dashboard_view == some "d-solo" && !(pyTruthy options.panel_id)) = false →
       pyTruthy options.dashboard_uid = false →
       pyTruthy (get_scenario (options.scenario.getD "")).dashboard_uid = false →
       (run options get_scenario).2 = some (RunError.keyError
         "Dashboard UID is mandatory, either supply it on the command line or via scenario file")) := by
  refine ⟨?_, ?_, ?_, ?_⟩
  · intro h
    rw [mergeScenario_grafana_url, if_pos h]
  · intro h1 h2
    rw [mergeScenario_grafana_url]
    simp [h1, h2]
  · intro h
    rw [mergeScenario_dashboard_uid, if_pos h]
  · intro h1 h2 hflag hscen
    have h3 : pyTruthy (resolvedScenario options get_scenario).dashboard_uid = false := by
      unfold resolvedScenario
      rw [mergeScenario_dashboard_uid]
      simp [hflag, hscen]
    simp [run, h1, h2, h3]

/-- C4 witness: concrete resolutions exercising all four precedence rules:
flag overriding URL, defaulted URL, flag overriding uid, and the fatal
KeyError when neither source supplies a uid. -/
theorem run_target_resolution_precedence_witness :
    ((mergeScenario sampleOptions presetScenario).1.grafana_url = sampleOptions.grafana_url)
    ∧ ((mergeScenario noFlagOptions bareScenario).1.grafana_url = some "http://localhost:3000")
    ∧ ((mergeScenario sampleOptions presetScenario).1.dashboard_uid = sampleOptions.dashboard_uid)
    ∧ ((run noFlagOptions bareLoader).2 = some (RunError.keyError
         "Dashboard UID is mandatory, either supply it on the command line or via scenario file")) :=
  ⟨(run_target_resolution_precedence sampleOptions presetScenario presetLoader).1 (by decide),
   (run_target_resolution_precedence noFlagOptions bareScenario bareLoader).2.1
     (by decide) (by decide),
   (run_target_resolution_precedence sampleOptions presetScenario presetLoader).2.2.1 (by decide),
   (run_target_resolution_precedence noFlagOptions bareScenario bareLoader).2.2.2
     (by decide) (by decide) (by decide) (by decide)⟩

/-- C5 counterexample: two frames that differ only in their sequence_index
(1 versus 2) but share identical from/to timestamps are mapped to the very
same file path, because the imagefile template of commands.py has no
sequence-index placeholder: the file name does not use the scenario-wide
sequence_index and therefore cannot guarantee lexical sortability for
frames with identical timestamps, contrary to the claim. -/
theorem framePath_ignores_sequence_index :
    (Frame.mk "20211001T000000" "20211001T000000" 1).sequence_index
      ≠ (Frame.mk "20211001T000000" "20211001T000000" 2).sequence_index
    ∧ framePath "ldi_all" "1aOmc1sik" (Frame.mk "20211001T000000" "20211001T000000" 1)
      = framePath "ldi_all" "1aOmc1sik" (Frame.mk "20211001T000000" "20211001T000000" 2) :=
  ⟨by decide, rfl⟩

/-- C5 amended: the Capture Orchestrator writes each frame under the
deterministic path template ./var/spool/ scenario / uid / uid_dtstart_dtuntil
.png; the file name is a function of the scenario, the dashboard uid and
the frame's effective from/to timestamps only — the sequence_index does
not occur in the name, so frames sharing identical from/to timestamps
collide instead of being lexically ordered by their index. -/
theorem framePath_deterministic_template (scenario uid a b : String) (i j : Nat) :
    framePath scenario uid (Frame.mk a b i)
      = "./var/spool/" ++ (scenario ++ ("/" ++ (uid ++ ("/" ++ (uid ++ ("_" ++
          (a ++ ("_" ++ (b ++ ".png")))))))))
    ∧ framePath scenario uid (Frame.mk a b i) = framePath scenario uid (Frame.mk a b j) :=
  ⟨rfl, rfl⟩

/-- C6: every run configures the storage with exactly the per-frame image
template ./var/spool/ scenario / uid / uid_dtstart_dtuntil .png and the
composite output template ./var/results/ scenario--name--uid .mp4, and
instantiating those templates substitutes the placeholders into exactly
the claimed file layout. -/
theorem run_file_layout (options : Options)
    (get_scenario : String → AnimationScenario) (i o : String)
    (hmem : PipelineAction.makeStorage i o ∈ (run options get_scenario).1) :
    (i = "./var/spool/{scenario}/{uid}/{uid}_{dtstart}_{dtuntil}.png"
      ∧ o = "./var/results/{scenario}--{name}--{uid}.mp4")
    ∧ (∀ sc u d1 d2 : String,
        pyFormat i [("scenario", sc), ("uid", u), ("dtstart", d1), ("dtuntil", d2)]
          = "./var/spool/" ++ (sc ++ ("/" ++ (u ++ ("/" ++ (u ++ ("_" ++ (d1 ++ ("_" ++ (d2 ++ ".png"))))))))))
    ∧ (∀ sc n u : String,
        pyFormat o [("scenario", sc), ("name", n), ("uid", u)]
          = "./var/results/" ++ (sc ++ ("--" ++ (n ++ ("--" ++ (u ++ ".mp4")))))) := by
  have hio : i = imagefile ∧ o = outputfile := by
    by_cases h1 : pyTruthy options.scenario = true
    · by_cases h2 : (options.dashboard_view == some "d-solo" && !(pyTruthy options.panel_id)) = true
      · simp [run, h1, h2] at hmem
      · by_cases h3 : pyTruthy (resolvedScenario options get_scenario).dashboard_uid = true
        · rcases hra : run_animation (resolvedScenario options get_scenario) with e' | u'
          · simp [run, h1, h2, h3, hra] at hmem
            exact hmem
          · simp [run, h1, h2, h3, hra] at hmem
            exact hmem
        · simp [run, h1, h2, h3] at hmem
    · simp [run, h1] at hmem
  rcases hio with ⟨hi, ho⟩
  subst hi; subst ho
  exact ⟨⟨rfl, rfl⟩, fun sc u d1 d2 => rfl, fun sc n u => rfl⟩

/-- C6 witness: the templates of a concrete successful run are exactly the
claimed ones and instantiate to the claimed layout. -/
theorem run_file_layout_witness :
    ((imagefile = "./var/spool/{scenario}/{uid}/{uid}_{dtstart}_{dtuntil}.png"
      ∧ outputfile = "./var/results/{scenario}--{name}--{uid}.mp4"))
    ∧ (∀ sc u d1 d2 : String,
        pyFormat imagefile [("scenario", sc), ("uid", u), ("dtstart", d1), ("dtuntil", d2)]
          = "./var/spool/" ++ (sc ++ ("/" ++ (u ++ ("/" ++ (u ++ ("_" ++ (d1 ++ ("_" ++ (d2 ++ ".png"))))))))))
    ∧ (∀ sc n u : String,
        pyFormat outputfile [("scenario", sc), ("name", n), ("uid", u)]
          = "./var/results/" ++ (sc ++ ("--" ++ (n ++ ("--" ++ (u ++ ".mp4")))))) :=
  run_file_layout sampleOptions presetLoader imagefile outputfile (by decide)

/-- C7 counterexample: with no command line target flags and a scenario
that already carries both grafana_url and dashboard_uid, the merge block
immediately after load performs zero field assignments — not exactly two
as the claim states for every run. -/
theorem scenario_not_mutated_exactly_twice :
    (mergeScenario noFlagOptions presetScenario).2 = 0
    ∧ (mergeScenario noFlagOptions presetScenario).2 ≠ 2 := by decide

/-- C7 amended: the scenario is mutated only in the merge block immediately
after load, with at most two field assignments (at most one to grafana_url,
at most one to dashboard_uid; the exact count is 0, 1 or 2 depending on
which sources supply values), and every later pipeline stage reads exactly
the merged scenario, which is never modified again. -/
theorem run_scenario_merge_bound_and_read_only (options : Options)
    (get_scenario : String → AnimationScenario) (e : ℚ) (b : Bool)
    (s : AnimationScenario) (r u : Option String) :
    (mergeScenario options (get_scenario (options.scenario.getD ""))).2 ≤ 2
    ∧ (PipelineAction.runAnimation e b s ∈ (run options get_scenario).1 →
        s = resolvedScenario options get_scenario)
    ∧ (PipelineAction.produceArtifacts r u ∈ (run options get_scenario).1 →
        u = (resolvedScenario options get_scenario).dashboard_uid) := by
  refine ⟨mergeScenario_count_le_two options _, ?_, ?_⟩
  · intro hmem
    by_cases h1 : pyTruthy options.scenario = true
    · by_cases h2 : (options.dashboard_view == some "d-solo" && !(pyTruthy options.panel_id)) = true
      · simp [run, h1, h2] at hmem
      · by_cases h3 : pyTruthy (resolvedScenario options get_scenario).dashboard_uid = true
        · rcases hra : run_animation (resolvedScenario options get_scenario) with e' | u'
          · simp [run, h1, h2, h3, hra] at hmem
            exact hmem.2.2
          · simp [run, h1, h2, h3, hra] at hmem
            exact hmem.2.2
        · simp [run, h1, h2, h3] at hmem
    · simp [run, h1] at hmem
  · intro hmem
    by_cases h1 : pyTruthy options.scenario = true
    · by_cases h2 : (options.dashboard_view == some "d-solo" && !(pyTruthy options.panel_id)) = true
      · simp [run, h1, h2] at hmem
      · by_cases h3 : pyTruthy (resolvedScenario options get_scenario).dashboard_uid = true
        · rcases hra : run_animation (resolvedScenario options get_scenario) with e' | u'
          · simp [run, h1, h2, h3, hra] at hmem
          · simp [run, h1, h2, h3, hra] at hmem
            exact hmem.2
        · simp [run, h1, h2, h3] at hmem
    · simp [run, h1] at hmem

/-- C7 witness: in a concrete run the merge count is within the bound and
the animation engine and artifact stages read exactly the merged
scenario. -/
theorem run_scenario_merge_bound_and_read_only_witness :
    (mergeScenario sampleOptions (presetLoader "playdemo")).2 ≤ 2
    ∧ resolvedScenario sampleOptions presetLoader = resolvedScenario sampleOptions presetLoader
    ∧ (resolvedScenario sampleOptions presetLoader).dashboard_uid
        = (resolvedScenario sampleOptions presetLoader).dashboard_uid := by
  have h := run_scenario_merge_bound_and_read_only sampleOptions presetLoader 0 true
      (resolvedScenario sampleOptions presetLoader) sampleOptions.scenario
      (resolvedScenario sampleOptions presetLoader).dashboard_uid
  exact ⟨h.1, h.2.1 (by decide), h.2.2 (by decide)⟩

/-- C8 counterexample: AnimationStep is declared as a plain, non-frozen
dataclass, so assigning a new navigation flavor to an already constructed
step succeeds and changes the field — the flavor of a step is not
immutable once the step is constructed, contrary to the claim. -/
theorem animation_step_flavor_mutable :
    AnimationStep.setFlavor sampleStep (some NavigationFlavor.EXPAND)
      = some { sampleStep with flavor := some NavigationFlavor.EXPAND }
    ∧ ({ sampleStep with flavor := some NavigationFlavor.EXPAND }).flavor
      ≠ sampleStep.flavor := by decide

/-- C8 amended: NavigationFlavor is a closed enumerated variant with
exactly the two distinct cases WINDOW and EXPAND; AnimationStep, however,
is a non-frozen dataclass, so the flavor of a constructed step is not
enforced immutable: field assignment is permitted and rebinds the flavor
(no code in the repository performs such an assignment). -/
theorem navigation_flavor_closed_two_cases :
    (∀ f : NavigationFlavor, f = NavigationFlavor.WINDOW ∨ f = NavigationFlavor.EXPAND)
    ∧ NavigationFlavor.WINDOW ≠ NavigationFlavor.EXPAND
    ∧ AnimationStep.dataclassFrozen = false
    ∧ ∀ (s : AnimationStep) (v : Option NavigationFlavor),
        AnimationStep.setFlavor s v = some { s with flavor := v } := by
  refine ⟨fun f => ?_, by decide, rfl, fun s v => rfl⟩
  cases f
  · exact Or.inl rfl
  · exact Or.inr rfl

/-- C9: an AnimationScenario with an empty steps list is rejected by the
animation engine as a configuration error; a run that completes without
error therefore had a non-empty steps list, and a run over an empty-steps
scenario surfaces the configuration error to the caller instead of
silently producing zero frames. -/
theorem empty_steps_is_reported_error (options : Options)
    (get_scenario : String → AnimationScenario) (s : AnimationScenario) :
    (s.steps = [] →
      run_animation s = Except.error (RunError.configurationError "scenario has no steps"))
    ∧ ((run options get_scenario).2 = none →
        (resolvedScenario options get_scenario).steps ≠ [])
    ∧ (pyTruthy options.scenario = true →
       (options.dashboard_view == some "d-solo" && !(pyTruthy options.panel_id)) = false →
       pyTruthy (resolvedScenario options get_scenario).dashboard_uid = true →
       (resolvedScenario options get_scenario).steps = [] →
       (run options get_scenario).2
         = some (RunError.configurationError "scenario has no steps")) := by
  refine ⟨?_, ?_, ?_⟩
  · intro h
    simp [run_animation, h]
  · intro hnone hempty
    by_cases h1 : pyTruthy options.scenario = true
    · by_cases h2 : (options.dashboard_view == some "d-solo" && !(pyTruthy options.panel_id)) = true
      · simp [run, h1, h2] at hnone
      · by_cases h3 : pyTruthy (resolvedScenario options get_scenario).dashboard_uid = true
        · rcases hra : run_animation (resolvedScenario options get_scenario) with e' | u
          · simp [run, h1, h2, h3, hra] at hnone
          · unfold run_animation at hra
            rw [if_pos (by simp [hempty])] at hra
            exact absurd hra (by simp)
        · simp [run, h1, h2, h3] at hnone
    · simp [run, h1] at hnone
  · intro h1 h2 h3 hempty
    have hra : run_animation (resolvedScenario options get_scenario)
        = Except.error (RunError.configurationError "scenario has no steps") := by
      simp [run_animation, hempty]
    simp [run, h1, h2, h3, hra]

/-- C9 witness: the concrete empty-steps scenario is rejected by the
engine, a concrete successful run has non-empty steps, and a concrete run
over the empty-steps scenario reports the configuration error. -/
theorem empty_steps_is_reported_error_witness :
    run_animation emptyStepsScenario
      = Except.error (RunError.configurationError "scenario has no steps")
    ∧ (resolvedScenario sampleOptions presetLoader).steps ≠ []
    ∧ (run sampleOptions emptyStepsLoader).2
      = some (RunError.configurationError "scenario has no steps") :=
  ⟨(empty_steps_is_reported_error sampleOptions presetLoader emptyStepsScenario).1 rfl,
   (empty_steps_is_reported_error sampleOptions presetLoader emptyStepsScenario).2.1 (by decide),
   (empty_steps_is_reported_error sampleOptions emptyStepsLoader emptyStepsScenario).2.2
     (by decide) (by decide) (by decide) (by decide)⟩

/-- C10: an AnimationStep constructed without an explicit flavor defaults
to NavigationFlavor.WINDOW, and the field is Optional: a step whose flavor
is None is also constructible. -/
theorem animation_step_flavor_default_window :
    (∀ (d u : Int) (i : String),
      ({ dtstart := d, dtuntil := u, interval := i } : AnimationStep).flavor
        = some NavigationFlavor.WINDOW)
    ∧ ∃ s : AnimationStep, s.flavor = none :=
  ⟨fun _ _ _ => rfl, ⟨{ dtstart := 0, dtuntil := 0, interval := "", flavor := none }, rfl⟩⟩

end Grafanimate
